import Mathlib

/-!
# Verification of the msi_support_assistant authentication/authorization layer

Shallow embedding of the mock OAuth2 identity provider (`src/auth/mock_idp.py`),
the shared auth helpers (`src/auth_utils.py`), and the permission logic of the
two resource servers (`src/organizations_mcp.py`, `src/ticketing_mcp.py`).

Python dictionaries are modelled as insertion-ordered association lists,
Python sets as `Finset String`, machine time as `Nat` seconds, fallible
endpoints as `Except`-valued functions, and an uncaught Python exception
(a `TypeError` escaping a tool) as an explicit result constructor.
-/

namespace MsiAuth

/-! ## Python dictionary model (insertion-ordered association list) -/

/-- Python `d[k]` lookup (`dict.get`): first binding of `k`, if any. -/
def pyDictGet {α : Type} (d : List (String × α)) (k : String) : Option α :=
  (d.find? (fun p => p.1 = k)).map (fun p => p.2)

/-- Python `k in d` membership test on the keys of a Python dict. -/
def pyDictContains {α : Type} (d : List (String × α)) (k : String) : Bool :=
  d.any (fun p => p.1 = k)

/-- Python `d[k] = v` assignment: overwrite in place when the key exists,
append otherwise (Python dicts keep insertion order). -/
def pyDictInsert {α : Type} (d : List (String × α)) (k : String) (v : α) :
    List (String × α) :=
  if d.any (fun p => p.1 = k) then
    d.map (fun p => if p.1 = k then (k, v) else p)
  else
    d ++ [(k, v)]

theorem pyDictGet_insert_self {α : Type} (d : List (String × α)) (k : String) (v : α) :
    pyDictGet (pyDictInsert d k v) k = some v := by
  unfold pyDictInsert
  by_cases h : d.any (fun p => p.1 = k) = true
  · simp only [h, if_true]
    induction d with
    | nil => simp at h
    | cons hd tl ih =>
      by_cases hk : hd.1 = k
      · simp [pyDictGet, List.find?, hk]
      · simp only [List.any_cons, Bool.or_eq_true, decide_eq_true_eq] at h
        rcases h with h | h
        · exact absurd h hk
        · simpa [pyDictGet, List.find?, hk] using ih h
  · simp only [h, if_false]
    induction d with
    | nil => simp [pyDictGet]
    | cons hd tl ih =>
      simp only [List.any_cons, Bool.or_eq_true, decide_eq_true_eq] at h
      push_neg at h
      have hk : ¬ hd.1 = k := h.1
      simpa [pyDictGet, List.find?, hk] using ih h.2

/-- Membership in the result of a dict assignment: either an untouched
pre-existing binding, or the binding just written. -/
theorem mem_pyDictInsert {α : Type} {d : List (String × α)} {k : String} {v : α}
    {p : String × α} (h : p ∈ pyDictInsert d k v) : p ∈ d ∨ p = (k, v) := by
  unfold pyDictInsert at h
  by_cases hc : d.any (fun p => p.1 = k) = true
  · simp only [hc, if_true, List.mem_map] at h
    rcases h with ⟨q, hq, hqe⟩
    by_cases hk : q.1 = k
    · right
      simp only [hk, if_true] at hqe
      exact hqe.symm
    · left
      simp only [hk, if_false] at hqe
      rwa [← hqe]
  · simp [hc] at h
    exact h

/-! ## Mock identity provider (`src/auth/mock_idp.py`) -/

def ISSUER_URL : String := "http://127.0.0.1:9400"

/-- Code / token lifetime in seconds (`EXP_TIME = 600`). -/
def EXP_TIME : Nat := 600

/-- One record of the static `users` dict in `mock_idp.py`. -/
structure UserEntry where
  sub : String
  roles : List String
  organizations : List String
deriving DecidableEq, Repr

/-- The static `users` directory of the mock identity provider, verbatim. -/
def users : List (String × UserEntry) :=
  [ ("test-client", ⟨"test-client", [], []⟩),
    ("james_smith", ⟨"james_smith", [], ["Dallas_Police"]⟩),
    ("linda_baker", ⟨"linda_baker", [], ["Dallas_Police"]⟩),
    ("terry_jobs", ⟨"terry_jobs", [], ["Dallas_Police"]⟩),
    ("paul_morgan", ⟨"paul_morgan", [], ["Allen_Firestation"]⟩),
    ("admin", ⟨"admin", ["admin"], []⟩) ]

/-- Value stored in the `auth_codes` dict: `{"user_id": ..., "exp": ...}`. -/
structure AuthCodeInfo where
  user_id : String
  exp : Nat
deriving DecidableEq, Repr

/-- The broker's mutable state: the `auth_codes` dict. -/
abbrev AuthCodes := List (String × AuthCodeInfo)

/-- The claim set of an issued access token (`access_claims` in `/token`). -/
structure Claims where
  iss : String
  aud : List String
  sub : String
  roles : List String
  organizations : List String
  exp : Nat
  iat : Nat
deriving DecidableEq, Repr

/-- An `HTTPException(status_code, detail)`. -/
structure HTTPError where
  status : Nat
  detail : String
deriving DecidableEq, Repr

/-- The static multi-audience list baked into every issued token. -/
def AUDIENCES : List String :=
  ["http://127.0.0.1:9000", "http://127.0.0.1:9001"]

/-- The `POST /login` handler (`login_post`). The fresh `uuid4` code is passed in
as `newCode`; `now` is `int(time.time())`. Returns the redirect URL built by
f-string interpolation together with the updated `auth_codes` dict. -/
def login_post (auth_codes : AuthCodes) (user_id redirect_uri state : String)
    (now : Nat) (newCode : String) : String × AuthCodes :=
  if ¬ pyDictContains users user_id then
    (redirect_uri ++ "?error=access_denied&state=" ++ state, auth_codes)
  else
    let exp := now + EXP_TIME
    let auth_codes' := pyDictInsert auth_codes newCode ⟨user_id, exp⟩
    (redirect_uri ++ "?code=" ++ newCode ++ "&state=" ++ state, auth_codes')

/-- The `POST /token` handler. On success the handler signs `access_claims` with
the RSA private key; the embedding returns the claim set itself. The handler
never writes to `auth_codes`, which the returned (unchanged) state records. -/
def tokenStep (auth_codes : AuthCodes) (code : String) (now : Nat) :
    Except HTTPError Claims × AuthCodes :=
  match pyDictGet auth_codes code with
  | none => (.error ⟨400, "invalid auth code"⟩, auth_codes)
  | some auth_info =>
    if auth_info.exp < now then
      (.error ⟨400, "auth code expired"⟩, auth_codes)
    else
      match pyDictGet users auth_info.user_id with
      | none => (.error ⟨401, "user id not found"⟩, auth_codes)
      | some user_info =>
        (.ok { iss := ISSUER_URL
               aud := AUDIENCES
               sub := user_info.sub
               roles := user_info.roles
               organizations := user_info.organizations
               exp := now + EXP_TIME
               iat := now }, auth_codes)

/-! ## Shared auth helpers (`src/auth_utils.py`)

`check_roles` and `get_username` appear verbatim in `auth_utils.py`,
`ticketing_mcp.py` and `organizations_mcp.py`. The verified access token of
the current request (`get_access_token()`) is passed in as `tok`. -/

/-- A Python `TypeError` (here: `role in None`). -/
inductive PyError where
  | typeError
deriving DecidableEq, Repr

/-- Helper `check_roles(allowed_roles)`:
`roles = token.claims.get("roles") if token else None` followed by
`any(role in roles for role in allowed_roles)`. When `allowed_roles` is
empty the generator is never advanced and `any` returns `False`; otherwise
the first membership test `role in None` raises a `TypeError` when no token
is present. -/
def check_roles (tok : Option Claims) (allowed_roles : List String) :
    Except PyError Bool :=
  let roles := tok.map (fun t => t.roles)
  match allowed_roles with
  | [] => .ok false
  | _ =>
    match roles with
    | none => .error .typeError
    | some rs => .ok (allowed_roles.any (fun role => rs.contains role))

/-- Helper `get_username()`: the token's `sub` claim, or `None` without a token. -/
def get_username (tok : Option Claims) : Option String :=
  tok.map (fun t => t.sub)

/-! ## Organizations resource server (`src/organizations_mcp.py`)

The `users.db` SQLite table backing the tools, one row per
(username, organization) pair with a comma-joined permission string,
is passed in as a list of rows in table order; `fetchone` is `List.find?`. -/

/-- One row of the `users` table in `users.db`. -/
structure UserRow where
  username : String
  organization : String
  organization_permissions : String
deriving DecidableEq, Repr

/-- Python `str.split(',')` over the character list (structural recursion,
so that proofs evaluate it): splitting the empty string yields `[""]`,
exactly as in Python. -/
def splitComma : List Char → List (List Char)
  | [] => [[]]
  | c :: rest =>
    if c = ',' then [] :: splitComma rest
    else
      match splitComma rest with
      | [] => [[c]]
      | h :: t => (c :: h) :: t

/-- Python `s.split(',')`. -/
def pySplitComma (s : String) : List String :=
  (splitComma s.data).map (fun cs => String.mk cs)

/-- Python `set(permissions_str[0].split(','))`. -/
def rowPerms (r : UserRow) : Finset String :=
  (pySplitComma r.organization_permissions).toFinset

/-- The caller's permission-row lookup shared by both organization tools:
`SELECT organization_permissions FROM users WHERE username = ? AND
organization = ?` with `fetchone`. A `None` username parameter (no token)
matches no row, as SQL `NULL` equality never holds. -/
def callerRow (db : List UserRow) (uname : Option String) (organization : String) :
    Option UserRow :=
  db.find? (fun r => decide (some r.username = uname ∧ r.organization = organization))

/-- Tool `get_organization_users(organization)`. `.error` is the `{"error": ...}`
payload, `.ok` the `{"users": [...]}` username list. A `TypeError` raised by
`check_roles` inside the `try` block is caught by the bare `except` and
surfaces as `{"error": "Error with request"}`. -/
def get_organization_users (tok : Option Claims) (organization : String)
    (db : List UserRow) : Except String (List String) :=
  if organization = "" then .error "Error, no argument given for organization"
  else
    match check_roles tok ["admin"] with
    | .error _ => .error "Error with request"
    | .ok isAdmin =>
      let runQuery : Except String (List String) :=
        .ok ((db.filter (fun r => r.organization = organization)).map
              (fun r => r.username))
      if isAdmin then runQuery
      else
        match callerRow db (get_username tok) organization with
        | some row =>
          if "view_agency_users" ∈ rowPerms row then runQuery
          else .error "User does not have permission to use this tool for the given organization"
        | none => .error "User does not have permission to use this tool for the given organization"

/-- The `permissions_comparison` dict returned by `compare_user_permissions`:
the `"shared_permissions"` entry plus the `"unique_to_<user>"` entries in
dict insertion order. -/
structure PermComparison where
  shared_permissions : Finset String
  uniques : List (String × Finset String)
deriving DecidableEq

/-- The per-target lookup of `compare_user_permissions`:
`SELECT organization_permissions FROM users WHERE username = ?` with
`fetchone` — the query filters on username only, not on the organization
argument, and takes the first matching row in table order; a missing row
yields the empty set. -/
def targetPermissions (db : List UserRow) (user : String) : Finset String :=
  match db.find? (fun r => r.username = user) with
  | some r => rowPerms r
  | none => ∅

/-- One iteration of the `for user in usernames` loop of
`compare_user_permissions`: record the looked-up permission set in
`user_permissions_map` and append it to `all_permissions`. -/
def comparePermStep (db : List UserRow)
    (acc : List (String × Finset String) × List (Finset String))
    (user : String) : List (String × Finset String) × List (Finset String) :=
  (pyDictInsert acc.1 user (targetPermissions db user),
   acc.2 ++ [targetPermissions db user])

/-- Tool `compare_user_permissions(organization, usernames)`. -/
def compare_user_permissions (tok : Option Claims) (organization : String)
    (usernames : List String) (db : List UserRow) : Except String PermComparison :=
  if organization = "" then .error "Error, no argument given for organization"
  else if usernames.isEmpty then .error "Error, no argument given for usernames"
  else
    match check_roles tok ["admin"] with
    | .error _ => .error "Error with request"
    | .ok isAdmin =>
      let body : Except String PermComparison :=
        let acc := usernames.foldl (comparePermStep db)
          (([] : List (String × Finset String)), ([] : List (Finset String)))
        let user_permissions_map := acc.1
        let all_permissions := acc.2
        let shared_permissions :=
          match all_permissions with
          | [] => (∅ : Finset String)
          | a :: _ => all_permissions.foldl (fun s t => s ∩ t) a
        .ok { shared_permissions := shared_permissions
              uniques := user_permissions_map.map
                (fun p => ("unique_to_" ++ p.1, p.2 \ shared_permissions)) }
      if isAdmin then body
      else
        match callerRow db (get_username tok) organization with
        | some row =>
          if "view_agency_users" ∈ rowPerms row then body
          else .error "User does not have permission to use this tool for the given organization"
        | none => .error "User does not have permission to use this tool for the given organization"

/-! ## Ticketing resource server (`src/ticketing_mcp.py`) -/

/-- One row of the `tickets` table in `ticket.db`. `username`, `response`
and `response_user` are nullable columns (`create_ticket` inserts the
current token's `sub`, which is `None` without a token). -/
structure Ticket where
  id : Nat
  title : String
  description : String
  username : Option String
  status : String
  response : Option String
  response_user : Option String
deriving DecidableEq, Repr

/-- The per-ticket value stored in the returned `tickets_json` dict. -/
structure TicketView where
  title : String
  description : String
  status : String
  resolution : Option String
  resolved_by : Option String
deriving DecidableEq, Repr

def ticketView (t : Ticket) : TicketView :=
  ⟨t.title, t.description, t.status, t.response, t.response_user⟩

/-- SQL equality against a possibly-`NULL` parameter: `username = ?` is
never satisfied when either side is `NULL`. -/
def sqlEqOpt (column param : Option String) : Bool :=
  match column, param with
  | some c, some p => c = p
  | _, _ => false

/-- Outcome of `get_tickets_by_user`: an uncaught exception (its
`check_roles` call sits outside the `try` block, so a `TypeError`
propagates), an `{"error": ...}` payload, or the `tickets_json` dict. -/
inductive TicketsResult where
  | raised (e : PyError)
  | err (msg : String)
  | ok (tickets_json : List (String × TicketView))
deriving DecidableEq, Repr

/-- Tool `get_tickets_by_user(username=None)`. Python truthiness makes an empty
string behave like an omitted argument (`username if username else
this_username`); the `tickets_json` dict is keyed by `str(ticket['id'])`. -/
def get_tickets_by_user (tok : Option Claims) (username : Option String)
    (db : List Ticket) : TicketsResult :=
  let this_username := get_username tok
  let goal_username :=
    match username with
    | none => this_username
    | some u => if u = "" then this_username else some u
  let runQuery : TicketsResult :=
    .ok ((db.filter (fun t => sqlEqOpt t.username goal_username)).foldl
          (fun acc t => pyDictInsert acc (toString t.id) (ticketView t)) [])
  if this_username ≠ goal_username then
    match check_roles tok ["admin"] with
    | .error e => .raised e
    | .ok isAdmin =>
      if isAdmin then runQuery
      else .err "User does not have permission to use this tool for the given username"
  else runQuery

/-! ## Concrete fixtures for witnesses and counterexamples -/

/-- The claim set issued to the `admin` user (global role `admin`). -/
def sampleAdminClaims : Claims :=
  { iss := ISSUER_URL, aud := AUDIENCES, sub := "admin", roles := ["admin"],
    organizations := [], exp := 700, iat := 100 }

/-- The claim set issued to `linda_baker` (no global roles). -/
def sampleLindaClaims : Claims :=
  { iss := ISSUER_URL, aud := AUDIENCES, sub := "linda_baker", roles := [],
    organizations := ["Dallas_Police"], exp := 700, iat := 100 }

/-- The claim set issued to `paul_morgan` (no global roles). -/
def samplePaulClaims : Claims :=
  { iss := ISSUER_URL, aud := AUDIENCES, sub := "paul_morgan", roles := [],
    organizations := ["Allen_Firestation"], exp := 700, iat := 100 }

/-- A sample `users.db` content matching the spec's end-to-end scenario. -/
def sampleUsersDb : List UserRow :=
  [ ⟨"james_smith", "Dallas_Police", "view_agency_users"⟩,
    ⟨"linda_baker", "Dallas_Police", "view_agency_users,edit_agency_users"⟩,
    ⟨"a", "Dallas_Police", "x,y"⟩,
    ⟨"b", "Dallas_Police", "y,z"⟩,
    ⟨"paul_morgan", "Allen_Firestation", "view_agency_users"⟩ ]

/-- A sample `ticket.db` content with a single ticket of `linda_baker`. -/
def sampleTickets : List Ticket :=
  [⟨1, "vpn issue", "cannot connect", some "linda_baker", "active", none, none⟩]

/-- An `auth_codes` table holding one outstanding code expiring at 100. -/
def boundaryCodes : AuthCodes := [("code1", ⟨"admin", 100⟩)]

/-- An `auth_codes` table holding one outstanding code expiring at 1000. -/
def replayCodes : AuthCodes := [("code1", ⟨"admin", 1000⟩)]

/-! ## Claim theorems -/

/-- C9: with no access token present and a non-empty `allowed_roles` list,
`check_roles` raises a `TypeError` (`role in None`) instead of returning a
`False` deny decision. -/
theorem check_roles_without_token_raises (allowed_roles : List String)
    (h : allowed_roles ≠ []) :
    check_roles none allowed_roles = .error .typeError := by
  cases allowed_roles with
  | nil => exact absurd rfl h
  | cons a l => rfl

theorem check_roles_without_token_raises_witness :
    (["admin"] : List String) ≠ [] ∧
      check_roles none ["admin"] = .error .typeError :=
  ⟨by decide, check_roles_without_token_raises ["admin"] (by decide)⟩

/-- C8: submitting an unknown username to `POST /login` redirects to
`redirect_uri` carrying `error=access_denied` and the original `state`
unchanged, and leaves the `auth_codes` table untouched (no code created). -/
theorem login_unknown_user_denied (auth_codes : AuthCodes)
    (user_id redirect_uri state : String) (now : Nat) (newCode : String)
    (h : pyDictContains users user_id = false) :
    login_post auth_codes user_id redirect_uri state now newCode =
      (redirect_uri ++ "?error=access_denied&state=" ++ state, auth_codes) := by
  unfold login_post
  simp [h]

theorem login_unknown_user_denied_witness :
    pyDictContains users "mallory" = false ∧
      login_post [] "mallory" "http://127.0.0.1:8300/callback" "xyz" 50 "c0" =
        ("http://127.0.0.1:8300/callback?error=access_denied&state=xyz", []) :=
  ⟨by decide,
   login_unknown_user_denied [] "mallory" "http://127.0.0.1:8300/callback" "xyz"
     50 "c0" (by decide)⟩

/-- C4 counterexample: at the exact expiry instant (`now = expires_at`) the
exchange still succeeds and returns a token, because the code checks
`auth_info["exp"] < time.time()` strictly; the claim as stated requires
failure whenever `now >= expires_at`. -/
theorem token_at_exact_expiry_succeeds :
    (tokenStep boundaryCodes "code1" 100).1 =
      .ok { iss := ISSUER_URL, aud := AUDIENCES, sub := "admin",
            roles := ["admin"], organizations := [], exp := 700, iat := 100 } := by
  rfl

/-- C4 (amended): the exchange fails with the 400 "auth code expired" client
error, and returns no token, whenever `now` is strictly greater than the
outstanding code's `expires_at`; the broker state is left unchanged. -/
theorem token_expired_code_fails (auth_codes : AuthCodes) (code : String)
    (now : Nat) (info : AuthCodeInfo)
    (hget : pyDictGet auth_codes code = some info) (hexp : info.exp < now) :
    tokenStep auth_codes code now = (.error ⟨400, "auth code expired"⟩, auth_codes) := by
  unfold tokenStep
  rw [hget]
  simp [hexp]

theorem token_expired_code_fails_witness :
    pyDictGet boundaryCodes "code1" = some ⟨"admin", 100⟩ ∧ 100 < 101 ∧
      tokenStep boundaryCodes "code1" 101 =
        (.error ⟨400, "auth code expired"⟩, boundaryCodes) :=
  ⟨by decide, by decide,
   token_expired_code_fails boundaryCodes "code1" 101 ⟨"admin", 100⟩
     (by decide) (by decide)⟩

/-- C1: the `/token` handler never removes a redeemed code from
`auth_codes`, so after a first successful exchange the broker state is
unchanged and a second exchange of the very same code succeeds again and
returns a token — the claimed one-time-use invalidation does not happen. -/
theorem token_replay_succeeds :
    (tokenStep replayCodes "code1" 500).2 = replayCodes ∧
    (tokenStep replayCodes "code1" 500).1 =
      .ok { iss := ISSUER_URL, aud := AUDIENCES, sub := "admin",
            roles := ["admin"], organizations := [], exp := 1100, iat := 500 } ∧
    (tokenStep (tokenStep replayCodes "code1" 500).2 "code1" 500).1 =
      .ok { iss := ISSUER_URL, aud := AUDIENCES, sub := "admin",
            roles := ["admin"], organizations := [], exp := 1100, iat := 500 } := by
  exact ⟨rfl, rfl, rfl⟩

/-- C3 counterexample: with an authorized (admin) caller and a valid
organization, an empty username list makes `compare_user_permissions`
return the structured `{"error": "Error, no argument given for usernames"}`
payload — an error result, not a normal empty comparison. -/
theorem compare_empty_usernames_is_error :
    compare_user_permissions (some sampleAdminClaims) "Dallas_Police" []
        sampleUsersDb =
      .error "Error, no argument given for usernames" := by
  rfl

/-- C3 (amended): for every caller and users table, and every non-empty
organization argument, an empty username list is rejected up front with the
structured error "Error, no argument given for usernames" — the guard runs
before any permission check or lookup. -/
theorem compare_empty_usernames_error (tok : Option Claims)
    (organization : String) (db : List UserRow) (h : organization ≠ "") :
    compare_user_permissions tok organization [] db =
      .error "Error, no argument given for usernames" := by
  unfold compare_user_permissions
  simp [h]

theorem compare_empty_usernames_error_witness :
    ("Dallas_Police" : String) ≠ "" ∧
      compare_user_permissions (some sampleAdminClaims) "Dallas_Police" []
          sampleUsersDb =
        .error "Error, no argument given for usernames" :=
  ⟨by decide,
   compare_empty_usernames_error (some sampleAdminClaims) "Dallas_Police"
     sampleUsersDb (by decide)⟩

/-- Evaluating `check_roles(["admin"])` under a present token reduces to the
token's `roles` list containing `"admin"`. -/
theorem check_roles_admin_eval (t : Claims) :
    check_roles (some t) ["admin"] = .ok (t.roles.contains "admin") := by
  unfold check_roles
  simp

/-- C5: a non-admin caller with no (username, organization) permission row
is denied by both organization-scoped tools with the structured
permission-denied error payload — absence of a row fails closed. -/
theorem org_tools_fail_closed (t : Claims) (organization : String)
    (db : List UserRow)
    (hadmin : t.roles.contains "admin" = false)
    (horg : organization ≠ "")
    (hrow : callerRow db (some t.sub) organization = none) :
    get_organization_users (some t) organization db =
      .error "User does not have permission to use this tool for the given organization" ∧
    ∀ usernames : List String, usernames ≠ [] →
      compare_user_permissions (some t) organization usernames db =
        .error "User does not have permission to use this tool for the given organization" := by
  have hcr := check_roles_admin_eval t
  rw [hadmin] at hcr
  constructor
  · unfold get_organization_users
    rw [hcr]
    simp [horg, get_username, hrow]
  · intro usernames hne
    unfold compare_user_permissions
    rw [hcr]
    have hie : usernames.isEmpty = false := by
      cases usernames with
      | nil => exact absurd rfl hne
      | cons a l => rfl
    simp [horg, hie, get_username, hrow]

theorem org_tools_fail_closed_witness :
    samplePaulClaims.roles.contains "admin" = false ∧
    ("Dallas_Police" : String) ≠ "" ∧
    callerRow sampleUsersDb (some samplePaulClaims.sub) "Dallas_Police" = none ∧
    (get_organization_users (some samplePaulClaims) "Dallas_Police" sampleUsersDb =
      .error "User does not have permission to use this tool for the given organization" ∧
    ∀ usernames : List String, usernames ≠ [] →
      compare_user_permissions (some samplePaulClaims) "Dallas_Police" usernames
          sampleUsersDb =
        .error "User does not have permission to use this tool for the given organization") :=
  ⟨by decide, by decide, by decide,
   org_tools_fail_closed samplePaulClaims "Dallas_Police" sampleUsersDb
     (by decide) (by decide) (by decide)⟩

/-- C6: a caller whose claims carry the global role `admin` passes the
organization-scoped check of both tools unconditionally, for every
organization and users table — no permission row of its own is consulted:
`get_organization_users` returns the organization's username list and
`compare_user_permissions` returns a comparison result, never a deny. -/
theorem admin_bypasses_org_checks (t : Claims) (organization : String)
    (db : List UserRow)
    (hadmin : t.roles.contains "admin" = true)
    (horg : organization ≠ "") :
    get_organization_users (some t) organization db =
      .ok ((db.filter (fun r => r.organization = organization)).map
            (fun r => r.username)) ∧
    ∀ usernames : List String, usernames ≠ [] →
      ∃ r, compare_user_permissions (some t) organization usernames db = .ok r := by
  have hcr := check_roles_admin_eval t
  rw [hadmin] at hcr
  constructor
  · unfold get_organization_users
    rw [hcr]
    simp [horg]
  · intro usernames hne
    unfold compare_user_permissions
    rw [hcr]
    have hie : usernames.isEmpty = false := by
      cases usernames with
      | nil => exact absurd rfl hne
      | cons a l => rfl
    simp [horg, hie]

theorem admin_bypasses_org_checks_witness :
    sampleAdminClaims.roles.contains "admin" = true ∧
    ("Dallas_Police" : String) ≠ "" ∧
    (get_organization_users (some sampleAdminClaims) "Dallas_Police" sampleUsersDb =
      .ok ((sampleUsersDb.filter
              (fun r => r.organization = "Dallas_Police")).map
            (fun r => r.username)) ∧
    ∀ usernames : List String, usernames ≠ [] →
      ∃ r, compare_user_permissions (some sampleAdminClaims) "Dallas_Police"
        usernames sampleUsersDb = .ok r) :=
  ⟨by decide, by decide,
   admin_bypasses_org_checks sampleAdminClaims "Dallas_Police" sampleUsersDb
     (by decide) (by decide)⟩

/-- A successful dict lookup implies key membership. -/
theorem pyDictContains_of_get {α : Type} {d : List (String × α)} {k : String}
    (h : (pyDictGet d k).isSome) : pyDictContains d k = true := by
  unfold pyDictGet at h
  unfold pyDictContains
  cases hf : d.find? (fun p => p.1 = k) with
  | none => rw [hf] at h; simp at h
  | some p =>
    have hp := List.find?_some hf
    have hmem := List.mem_of_find?_eq_some hf
    exact List.any_eq_true.mpr ⟨p, hmem, hp⟩

/-- In a directory whose every record's `sub` equals its key, a successful
lookup returns a record whose `sub` is the looked-up key. -/
theorem pyDictGet_sub_eq (d : List (String × UserEntry))
    (hd : ∀ p ∈ d, p.2.sub = p.1) (k : String) (info : UserEntry)
    (h : pyDictGet d k = some info) : info.sub = k := by
  unfold pyDictGet at h
  cases hf : d.find? (fun p => p.1 = k) with
  | none => rw [hf] at h; cases h
  | some p =>
    rw [hf] at h
    simp only [Option.map_some'] at h
    have hp : p.1 = k := by
      have := List.find?_some hf
      simpa using this
    have h2 : p.2 = info := by injection h
    rw [← h2, hd p (List.mem_of_find?_eq_some hf), hp]

/-- C7: for every username present in the identity store, logging in and
exchanging the freshly issued code before its expiry yields a token whose
`sub` claim is the logged-in username and whose `aud` claim contains the
URL of both registered resource servers (ticketing and organizations). -/
theorem login_then_exchange_sso (username : String) (uinfo : UserEntry)
    (hu : pyDictGet users username = some uinfo)
    (auth_codes : AuthCodes) (redirect_uri state newCode : String)
    (now now' : Nat) (hbefore : now' < now + EXP_TIME) :
    ∃ cl : Claims,
      (tokenStep (login_post auth_codes username redirect_uri state now
          newCode).2 newCode now').1 = .ok cl ∧
      cl.sub = username ∧
      "http://127.0.0.1:9000" ∈ cl.aud ∧ "http://127.0.0.1:9001" ∈ cl.aud := by
  have hc : pyDictContains users username = true :=
    pyDictContains_of_get (by rw [hu]; rfl)
  have hsub : uinfo.sub = username :=
    pyDictGet_sub_eq users (by decide) username uinfo hu
  have hstate : (login_post auth_codes username redirect_uri state now
      newCode).2 = pyDictInsert auth_codes newCode ⟨username, now + EXP_TIME⟩ := by
    unfold login_post
    simp [hc]
  rw [hstate]
  unfold tokenStep
  rw [pyDictGet_insert_self]
  have hnexp : ¬ (now + EXP_TIME < now') := by omega
  simp only [hnexp, if_false, hu]
  refine ⟨_, rfl, hsub, ?_, ?_⟩ <;> simp [AUDIENCES]

theorem login_then_exchange_sso_witness :
    pyDictGet users "linda_baker" = some ⟨"linda_baker", [], ["Dallas_Police"]⟩ ∧
    (5 : Nat) < 0 + EXP_TIME ∧
    ∃ cl : Claims,
      (tokenStep (login_post [] "linda_baker" "http://127.0.0.1:8300/callback"
          "xyz" 0 "c1").2 "c1" 5).1 = .ok cl ∧
      cl.sub = "linda_baker" ∧
      "http://127.0.0.1:9000" ∈ cl.aud ∧ "http://127.0.0.1:9001" ∈ cl.aud :=
  ⟨by decide, by decide,
   login_then_exchange_sso "linda_baker" ⟨"linda_baker", [], ["Dallas_Police"]⟩
     (by decide) [] "http://127.0.0.1:8300/callback" "xyz" "c1" 0 5 (by decide)⟩

/-- Unrolling the comparison loop over distinct usernames: starting from an
accumulator whose map holds none of the remaining usernames, the loop
appends one map entry and one permission set per username, in order. -/
theorem comparePermStep_foldl (db : List UserRow) :
    ∀ (usernames : List String) (accm : List (String × Finset String))
      (accl : List (Finset String)),
      usernames.Nodup →
      (∀ u ∈ usernames, accm.any (fun p => p.1 = u) = false) →
      usernames.foldl (comparePermStep db) (accm, accl) =
        (accm ++ usernames.map (fun u => (u, targetPermissions db u)),
         accl ++ usernames.map (targetPermissions db)) := by
  intro usernames
  induction usernames with
  | nil =>
    intro accm accl _ _
    simp
  | cons u rest ih =>
    intro accm accl hnd hfresh
    have hany : accm.any (fun p => p.1 = u) = false :=
      hfresh u (List.mem_cons_self u rest)
    have hstep : comparePermStep db (accm, accl) u =
        (accm ++ [(u, targetPermissions db u)],
         accl ++ [targetPermissions db u]) := by
      unfold comparePermStep pyDictInsert
      rw [hany]
      simp
    have hnotmem : u ∉ rest := (List.nodup_cons.mp hnd).1
    have hfresh' : ∀ v ∈ rest,
        (accm ++ [(u, targetPermissions db u)]).any (fun p => p.1 = v) = false := by
      intro v hv
      rw [List.any_append]
      have h1 : accm.any (fun p => p.1 = v) = false :=
        hfresh v (List.mem_cons_of_mem u hv)
      have h2 : u ≠ v := fun he => hnotmem (he ▸ hv)
      simp [h1, h2]
    rw [List.foldl_cons, hstep,
        ih _ _ (List.nodup_cons.mp hnd).2 hfresh']
    simp

/-- Membership in the left fold of set intersections. -/
theorem mem_foldl_inter (l : List (Finset String)) :
    ∀ (a : Finset String) (x : String),
      x ∈ l.foldl (fun s t => s ∩ t) a ↔ x ∈ a ∧ ∀ s ∈ l, x ∈ s := by
  induction l with
  | nil =>
    intro a x
    simp
  | cons b r ih =>
    intro a x
    rw [List.foldl_cons, ih]
    simp only [Finset.mem_inter, List.mem_cons]
    constructor
    · rintro ⟨⟨hxa, hxb⟩, hall⟩
      refine ⟨hxa, ?_⟩
      rintro s (rfl | hs)
      · exact hxb
      · exact hall s hs
    · rintro ⟨hxa, hall⟩
      exact ⟨⟨hxa, hall b (Or.inl rfl)⟩, fun s hs => hall s (Or.inr hs)⟩

/-- The caller passes the organization-scoped gate of the organization
tools: either it holds the global role `admin`, or its own
(username, organization) row exists and carries `view_agency_users`. -/
def callerAuthorized (tok : Option Claims) (organization : String)
    (db : List UserRow) : Prop :=
  ∃ t, tok = some t ∧
    (t.roles.contains "admin" = true ∨
      ∃ row, callerRow db (some t.sub) organization = some row ∧
        "view_agency_users" ∈ rowPerms row)

/-- C2 (amended): for an authorized caller and a non-empty, duplicate-free
username list, `compare_user_permissions` succeeds; each target's permission
set is looked up by username only — the first `users` row for that username
in any organization, the organization argument being ignored by the
per-target query, empty set if the user has no row at all —
`shared_permissions` is the intersection of those sets over all targets,
and the result carries one `unique_to_<user>` entry per target, in order,
holding that target's set minus `shared_permissions`. -/
theorem compare_user_permissions_characterized
    (tok : Option Claims) (organization : String) (usernames : List String)
    (db : List UserRow)
    (hauth : callerAuthorized tok organization db)
    (horg : organization ≠ "") (hne : usernames ≠ [])
    (hnd : usernames.Nodup) :
    ∃ r, compare_user_permissions tok organization usernames db = .ok r ∧
      (∀ x : String, x ∈ r.shared_permissions ↔
        ∀ u ∈ usernames, x ∈ targetPermissions db u) ∧
      r.uniques = usernames.map
        (fun u => ("unique_to_" ++ u,
          targetPermissions db u \ r.shared_permissions)) := by
  obtain ⟨t, rfl, hcase⟩ := hauth
  obtain ⟨u0, rest, rfl⟩ : ∃ u0 rest, usernames = u0 :: rest := by
    cases usernames with
    | nil => exact absurd rfl hne
    | cons a l => exact ⟨a, l, rfl⟩
  have hfold := comparePermStep_foldl db (u0 :: rest) [] [] hnd
    (by intro u _; rfl)
  have hbody :
      compare_user_permissions (some t) organization (u0 :: rest) db =
        .ok { shared_permissions :=
                ((targetPermissions db u0 :: rest.map (targetPermissions db)).foldl
                  (fun s t => s ∩ t) (targetPermissions db u0)),
              uniques :=
                (((u0, targetPermissions db u0) ::
                    rest.map (fun u => (u, targetPermissions db u))).map
                  (fun p => ("unique_to_" ++ p.1, p.2 \
                    ((targetPermissions db u0 ::
                        rest.map (targetPermissions db)).foldl
                      (fun s t => s ∩ t) (targetPermissions db u0))))) } := by
    unfold compare_user_permissions
    rw [check_roles_admin_eval]
    rcases hcase with hadm | ⟨row, hrow, hperm⟩
    · have hmem : "admin" ∈ t.roles := by simpa using hadm
      simp [horg, hfold, hmem]
    · by_cases hadm : "admin" ∈ t.roles
      · simp [horg, hfold, hadm]
      · simp [horg, hfold, hadm, get_username, hrow, hperm]
  refine ⟨_, hbody, ?_, ?_⟩
  · intro x
    rw [mem_foldl_inter]
    simp only [List.mem_cons, List.mem_map]
    constructor
    · rintro ⟨hx0, hall⟩ u (rfl | hu)
      · exact hx0
      · exact hall _ (Or.inr ⟨u, hu, rfl⟩)
    · rintro hall
      refine ⟨hall u0 (Or.inl rfl), ?_⟩
      rintro s (rfl | ⟨u, hu, rfl⟩)
      · exact hall u0 (Or.inl rfl)
      · exact hall u (Or.inr hu)
  · simp [List.map_map, Function.comp]

theorem compare_user_permissions_characterized_witness :
    callerAuthorized (some sampleAdminClaims) "Dallas_Police" sampleUsersDb ∧
    ("Dallas_Police" : String) ≠ "" ∧
    (["a", "b"] : List String) ≠ [] ∧
    (["a", "b"] : List String).Nodup ∧
    (∃ r, compare_user_permissions (some sampleAdminClaims) "Dallas_Police"
        ["a", "b"] sampleUsersDb = .ok r ∧
      (∀ x : String, x ∈ r.shared_permissions ↔
        ∀ u ∈ (["a", "b"] : List String),
          x ∈ targetPermissions sampleUsersDb u) ∧
      r.uniques = (["a", "b"] : List String).map
        (fun u => ("unique_to_" ++ u,
          targetPermissions sampleUsersDb u \ r.shared_permissions))) :=
  ⟨⟨sampleAdminClaims, rfl, Or.inl (by decide)⟩, by decide, by decide, by decide,
   compare_user_permissions_characterized (some sampleAdminClaims)
     "Dallas_Police" ["a", "b"] sampleUsersDb
     ⟨sampleAdminClaims, rfl, Or.inl (by decide)⟩ (by decide) (by decide)
     (by decide)⟩

/-- A users table in which `b` has a permission row only in `org2`. -/
def orgMismatchDb : List UserRow := [⟨"b", "org2", "z"⟩]

/-- C2 counterexample: querying organization `org1`, in which target `b` has
no permission row at all, still yields `b`'s permission set `{z}` from its
`org2` row — the per-target lookup ignores the organization argument, so
the result is not the organization-scoped set (which would be empty, making
`shared` empty as well). -/
theorem compare_not_org_scoped :
    ∃ r, compare_user_permissions (some sampleAdminClaims) "org1" ["b"]
        orgMismatchDb = .ok r ∧
      r.shared_permissions = {"z"} ∧
      r.shared_permissions ≠ ∅ ∧
      r.uniques = [("unique_to_b", ∅)] := by
  refine ⟨_, rfl, by decide, by decide, by decide⟩

/-- A matching filter predicate result forces the column to equal the
(non-`NULL`) parameter. -/
theorem sqlEqOpt_eq_some {a : Option String} {b : String}
    (h : sqlEqOpt a (some b) = true) : a = some b := by
  cases a with
  | none => cases h
  | some c =>
    simp only [sqlEqOpt, decide_eq_true_eq] at h
    rw [h]

/-- Every entry of the `tickets_json` dict built by the query loop comes
from some ticket row in the queried list. -/
theorem mem_ticketsJson_foldl (l : List Ticket) :
    ∀ (acc : List (String × TicketView)) (p : String × TicketView),
      p ∈ l.foldl (fun acc t => pyDictInsert acc (toString t.id) (ticketView t)) acc →
      p ∈ acc ∨ ∃ tk ∈ l, p.1 = toString tk.id ∧ p.2 = ticketView tk := by
  induction l with
  | nil =>
    intro acc p hp
    left
    simpa using hp
  | cons t r ih =>
    intro acc p hp
    rw [List.foldl_cons] at hp
    rcases ih _ p hp with hacc | ⟨tk, htk, h1, h2⟩
    · rcases mem_pyDictInsert hacc with h | h
      · left; exact h
      · right
        exact ⟨t, List.mem_cons_self t r, by rw [h], by rw [h]⟩
    · right
      exact ⟨tk, List.mem_cons_of_mem t htk, h1, h2⟩

/-- C10 (amended): for a non-admin caller, passing a non-empty username
different from the caller's `sub` yields the structured permission error;
omitting the username argument is the same as passing the empty string
(Python truthiness makes both fall back to the caller) or the caller's own
username, and the returned `tickets_json` contains only tickets whose
username column equals the caller's `sub`. -/
theorem tickets_query_scoped_to_caller (t : Claims) (db : List Ticket)
    (hna : "admin" ∉ t.roles) :
    (∀ u : String, u ≠ "" → u ≠ t.sub →
      get_tickets_by_user (some t) (some u) db =
        .err "User does not have permission to use this tool for the given username") ∧
    get_tickets_by_user (some t) none db =
      get_tickets_by_user (some t) (some "") db ∧
    get_tickets_by_user (some t) none db =
      get_tickets_by_user (some t) (some t.sub) db ∧
    ∃ tj, get_tickets_by_user (some t) none db = .ok tj ∧
      ∀ p ∈ tj, ∃ tk ∈ db, tk.username = some t.sub ∧
        p.1 = toString tk.id ∧ p.2 = ticketView tk := by
  refine ⟨?_, ?_, ?_, ?_⟩
  · intro u hu hne
    unfold get_tickets_by_user
    rw [check_roles_admin_eval]
    have hgoal : ¬ u = "" := hu
    have hdiff : some t.sub ≠ some u := by
      simp only [ne_eq, Option.some.injEq]
      exact fun he => hne (he.symm)
    simp [get_username, hgoal, hdiff, hna]
  · unfold get_tickets_by_user
    simp [get_username]
  · by_cases hts : t.sub = "" <;>
      simp [get_tickets_by_user, get_username, hts]
  · have hrun : get_tickets_by_user (some t) none db =
        .ok ((db.filter (fun tk => sqlEqOpt tk.username (some t.sub))).foldl
              (fun acc tk => pyDictInsert acc (toString tk.id) (ticketView tk)) []) := by
      unfold get_tickets_by_user
      simp [get_username]
    refine ⟨_, hrun, ?_⟩
    intro p hp
    rcases mem_ticketsJson_foldl _ _ _ hp with h | ⟨tk, htk, h1, h2⟩
    · simp at h
    · have hmem := List.mem_filter.mp htk
      exact ⟨tk, hmem.1, sqlEqOpt_eq_some hmem.2, h1, h2⟩

theorem tickets_query_scoped_to_caller_witness :
    "admin" ∉ sampleLindaClaims.roles ∧
    ((∀ u : String, u ≠ "" → u ≠ sampleLindaClaims.sub →
      get_tickets_by_user (some sampleLindaClaims) (some u) sampleTickets =
        .err "User does not have permission to use this tool for the given username") ∧
    get_tickets_by_user (some sampleLindaClaims) none sampleTickets =
      get_tickets_by_user (some sampleLindaClaims) (some "") sampleTickets ∧
    get_tickets_by_user (some sampleLindaClaims) none sampleTickets =
      get_tickets_by_user (some sampleLindaClaims) (some sampleLindaClaims.sub)
        sampleTickets ∧
    ∃ tj, get_tickets_by_user (some sampleLindaClaims) none sampleTickets = .ok tj ∧
      ∀ p ∈ tj, ∃ tk ∈ sampleTickets, tk.username = some sampleLindaClaims.sub ∧
        p.1 = toString tk.id ∧ p.2 = ticketView tk) :=
  ⟨by decide,
   tickets_query_scoped_to_caller sampleLindaClaims sampleTickets (by decide)⟩

/-- C10 counterexample: `linda_baker` (non-admin) passes the empty string —
a username different from her own `sub` — yet the call is not denied: the
falsy argument silently falls back to her own username and returns her
tickets. -/
theorem tickets_empty_username_not_denied :
    ("" : String) ≠ sampleLindaClaims.sub ∧
    get_tickets_by_user (some sampleLindaClaims) (some "") sampleTickets =
      .ok [("1", ⟨"vpn issue", "cannot connect", "active", none, none⟩)] := by
  exact ⟨by decide, by decide⟩

end MsiAuth
